import Mathlib

/-!
Verification of the video-stream detection core of a browser extension.

The development shallowly embeds two source components:

* `StreamDetector` (background service worker): classifies observed network
  responses as video streams via URL/MIME heuristics, maintains a per-tab
  bounded, deduplicated list of `DetectedStream` records, and resets or purges
  a tab's list on navigation and tab close.
* `VideoDetector` (content script): scans a document snapshot for `video`
  elements, platform embeds and loose `source` tags and produces a
  deduplicated list of `VideoInfo` records.

JavaScript regular expressions used by the source are translated pattern by
pattern into executable character-list matchers.  JavaScript strings become
`String`, `undefined`-able values become `Option`, and the `Map` of per-tab
stream lists becomes a function `Int → Option (List DetectedStream)`.
Machine reals do not occur on the verified paths (sizes are integers);
`NaN` produced by a failed `parseInt` is represented by `none`, which is
behaviourally equivalent here because the source only uses such values in
truthiness tests and opaque record fields.
-/

namespace VideoSummarizer

/-! ## Character and string helpers -/

/-- ASCII lowering of a string to a character list, modelling
`String.prototype.toLowerCase` on the ASCII inputs used by the source. -/
def lcChars (s : String) : List Char := s.toList.map Char.toLower

/-- Substring test: `needle` occurs contiguously inside `hay`.
Models case-sensitive `String.prototype.includes`. -/
def containsSub (hay needle : List Char) : Bool :=
  hay.tails.any fun t => needle.isPrefixOf t

/-- Case-sensitive `includes` on strings. -/
def strIncludes (hay needle : String) : Bool := containsSub hay.toList needle.toList

/-- Case-insensitive `includes`: both sides lowered. -/
def ciIncludes (hay needle : String) : Bool := containsSub (lcChars hay) (lcChars needle)

/-- Rebuild a string from characters. -/
def chStr (cs : List Char) : String := String.mk cs

/-! ## JS regex fragments

Each helper models one shape of regular expression literal appearing in the
source.  All of them take the subject already lowered when the regex carries
the `i` flag. -/

/-- Model of `/lit/i.test(url)`: plain substring on the lowered subject. -/
def reLit (lit : String) (u : List Char) : Bool := containsSub u lit.toList

/-- Model of `/lit(?:\?|$)/i.test(url)`: `lit` followed by `?` or end of input. -/
def reTermQ (lit : String) (u : List Char) : Bool :=
  u.tails.any fun t =>
    lit.toList.isPrefixOf t &&
      match t.drop lit.toList.length with
      | [] => true
      | c :: _ => c = '?'

/-- Model of `/lit(?:\?|$|#)/i.test(url)`: `lit` followed by `?`, `#` or end. -/
def reTermQH (lit : String) (u : List Char) : Bool :=
  u.tails.any fun t =>
    lit.toList.isPrefixOf t &&
      match t.drop lit.toList.length with
      | [] => true
      | c :: _ => c = '?' || c = '#'

/-- Scan for `b` with a gap of non-line-terminator characters before it:
the `.*b` tail of a `/a.*b/` literal (JS `.` excludes line terminators). -/
def gapTo (b : List Char) : List Char → Bool
  | [] => b.isEmpty
  | c :: cs => b.isPrefixOf (c :: cs) || ((c != '\n') && (c != '\r') && gapTo b cs)

/-- Model of `/a.*b/i.test(url)` on the lowered subject. -/
def reSeq (a b : String) (u : List Char) : Bool :=
  u.tails.any fun t => a.toList.isPrefixOf t && gapTo b.toList (t.drop a.toList.length)

/-! ## Stream data model (src/types.ts) -/

/-- `StreamType` from the source type declarations. -/
inductive StreamType where
  | mp4 | webm | hls | dash | flv | unknown
deriving DecidableEq, Repr

/-- `DetectedStream` from the source type declarations.  Optional numeric
`size` keeps the parsed integer; a `NaN` parse is `none` (see header note). -/
structure DetectedStream where
  url : String
  type : StreamType
  size : Option Int
  quality : Option String
  contentType : Option String
  timestamp : Nat
deriving DecidableEq, Repr

/-! ## StreamDetector rulesets (background/streamDetector.ts) -/

/-- `EXCLUDE_PATTERNS.some(pattern => pattern.test(url))`: the ad/tracking,
analytics, static-asset and thumbnail exclusion list, in source order. -/
def excludeMatch (url : String) : Bool :=
  let u := lcChars url
  reLit "googleads" u || reLit "doubleclick" u || reLit "googlesyndication" u ||
  reLit "googleadservices" u || reLit "analytics" u || reLit "tracking" u ||
  reLit "pixel" u || reLit "beacon" u || reLit "telemetry" u ||
  reTermQ ".gif" u || reTermQ ".png" u || reTermQ ".jpg" u || reTermQ ".jpeg" u ||
  reTermQ ".svg" u || reTermQ ".ico" u || reLit ".woff" u || reLit ".ttf" u ||
  reTermQ ".css" u || reTermQ ".js" u || reLit "favicon" u || reLit "thumbnail" u ||
  reLit "preview" u || reLit "poster" u

/-- `VIDEO_URL_PATTERNS.some(pattern => pattern.test(url))`: stream file
extensions, manifest conventions and CDN/platform hosts, in source order. -/
def videoUrlMatch (url : String) : Bool :=
  let u := lcChars url
  reTermQH ".mp4" u || reTermQH ".webm" u || reTermQH ".m3u8" u || reTermQH ".mpd" u ||
  reTermQH ".flv" u || reTermQH ".ts" u || reTermQH ".m4s" u || reTermQH ".m4v" u ||
  reTermQH ".mov" u || reTermQH ".avi" u || reTermQH ".mkv" u || reTermQH ".3gp" u ||
  reLit "/manifest" u || reLit "/playlist.m3u8" u || reLit "/master.m3u8" u ||
  reLit "/index.m3u8" u || reLit "videoplayback" u || reLit "googlevideo.com" u ||
  reSeq "ytimg.com" ".webm" u || reSeq ".akamaihd.net" "video" u ||
  reSeq "cloudfront" "video" u || reSeq ".fbcdn.net" "video" u ||
  reSeq "twimg.com" "video" u || reSeq ".tiktokcdn.com" "video" u ||
  reSeq ".instagram.com" "video" u || reLit "vimeocdn.com" u ||
  reLit "player.vimeo.com" u || reSeq "dailymotion.com" "video" u ||
  reLit ".brightcove" u || reLit ".jwplatform" u || reLit ".jwpcdn" u ||
  reLit "bitmovin" u || reLit ".hls." u || reLit ".dash." u || reLit "streaming" u ||
  reSeq "media" ".mp4" u || reSeq "video" ".mp4" u || reSeq "cdn" "video" u

/-- `VIDEO_MIME_TYPES.some(mime => contentType.includes(mime.toLowerCase()))`;
`ct` is the already-lowered content type computed by `handleResponse`. -/
def videoMimeMatch (ct : String) : Bool :=
  let c := ct.toList
  containsSub c "video/mp4".toList || containsSub c "video/webm".toList ||
  containsSub c "video/ogg".toList || containsSub c "video/x-flv".toList ||
  containsSub c "video/quicktime".toList || containsSub c "video/x-msvideo".toList ||
  containsSub c "video/x-matroska".toList || containsSub c "video/3gpp".toList ||
  containsSub c "video/mpeg".toList || containsSub c "video/mp2t".toList ||
  containsSub c "application/x-mpegurl".toList ||
  containsSub c "application/vnd.apple.mpegurl".toList ||
  containsSub c "application/dash+xml".toList ||
  containsSub c "application/octet-stream".toList

/-- `looksLikeVideo(url, contentType)`: weak keyword fallback. -/
def looksLikeVideo (url ct : String) : Bool :=
  if strIncludes ct "octet-stream" then
    let u := lcChars url
    reLit "video" u || reLit "media" u || reLit "stream" u || reLit "play" u || reLit "watch" u
  else
    let u := lcChars url
    decide (1 ≤ ((["video", "media", "stream", "play", "watch", "clip", "movie"].filter
      fun kw => containsSub u kw.toList).length))

/-- The hls test of `detectStreamType`:
`urlLower.includes('.m3u8') || ctLower.includes('mpegurl') || ctLower.includes('x-mpegurl')`. -/
def kindCheckHls (u c : List Char) : Bool :=
  containsSub u ".m3u8".toList || containsSub c "mpegurl".toList ||
    containsSub c "x-mpegurl".toList

/-- The dash test: `urlLower.includes('.mpd') || ctLower.includes('dash')`. -/
def kindCheckDash (u c : List Char) : Bool :=
  containsSub u ".mpd".toList || containsSub c "dash".toList

/-- The mp4 test:
`urlLower.includes('.mp4') || urlLower.includes('.m4v') || ctLower.includes('mp4')`. -/
def kindCheckMp4 (u c : List Char) : Bool :=
  containsSub u ".mp4".toList || containsSub u ".m4v".toList || containsSub c "mp4".toList

/-- The webm test: `urlLower.includes('.webm') || ctLower.includes('webm')`. -/
def kindCheckWebm (u c : List Char) : Bool :=
  containsSub u ".webm".toList || containsSub c "webm".toList

/-- The flv test: `urlLower.includes('.flv') || ctLower.includes('flv')`. -/
def kindCheckFlv (u c : List Char) : Bool :=
  containsSub u ".flv".toList || containsSub c "flv".toList

/-- The segment test, classified as hls:
`urlLower.includes('.ts') || urlLower.includes('.m4s') || ctLower.includes('mp2t')`. -/
def kindCheckSegment (u c : List Char) : Bool :=
  containsSub u ".ts".toList || containsSub u ".m4s".toList || containsSub c "mp2t".toList

/-- `detectStreamType(url, contentType)`: fixed kind-order chain, where each
step tests a URL token and/or a MIME token. -/
def detectStreamType (url contentType : String) : StreamType :=
  let u := lcChars url
  let c := lcChars contentType
  if kindCheckHls u c then .hls
  else if kindCheckDash u c then .dash
  else if kindCheckMp4 u c then .mp4
  else if kindCheckWebm u c then .webm
  else if kindCheckFlv u c then .flv
  else if kindCheckSegment u c then .hls
  else .unknown

/-! ## Quality detection (`detectQuality`)

The source tries seven regex patterns in order, returns the first capture
group found, and post-processes all-digit captures through an itag table.
Each pattern gets a matcher that attempts a match at the head of a suffix;
`scanPat` scans suffixes left to right, giving the leftmost match as the JS
engine does. -/

/-- JS `\w` character class. -/
def isWordChar (c : Char) : Bool := c.isAlphanum || c = '_'

/-- Attempts for a greedy `{mn,mx}` repetition of `p` at the head of `t`,
longest first, each paired with the remaining input (regex backtracking
order). -/
def repAttempts (mn mx : Nat) (p : Char → Bool) (t : List Char) : List (List Char × List Char) :=
  ((List.range (mx + 1 - mn)).map fun i => mx - i).filterMap fun k =>
    let pre := t.take k
    if pre.length = k && pre.all p then some (pre, t.drop k) else none

/-- Case-insensitive literal at the head: returns the rest on success.
`pat` is given lowered. -/
def ciHeadMatch : List Char → List Char → Option (List Char)
  | [], t => some t
  | _, [] => none
  | p :: ps, c :: cs => if c.toLower = p then ciHeadMatch ps cs else none

/-- Head match of `/(\d{3,4})p/i`, capturing the digits. -/
def reNNNpAt (t : List Char) : Option String :=
  (repAttempts 3 4 Char.isDigit t).findSome? fun pr =>
    match pr.2 with
    | c :: _ => if c.toLower = 'p' then some (chStr pr.1) else none
    | [] => none

/-- Head match of `/(\d{3,4})x\d{3,4}/i`, capturing the first group. -/
def reWxHAt (t : List Char) : Option String :=
  (repAttempts 3 4 Char.isDigit t).findSome? fun pr =>
    match pr.2 with
    | c :: rest =>
      if c.toLower = 'x' then
        if (repAttempts 3 4 Char.isDigit rest).isEmpty then none else some (chStr pr.1)
      else none
    | [] => none

/-- Head match of `/\d{3,4}x(\d{3,4})/i`, capturing the second group. -/
def reWxHSndAt (t : List Char) : Option String :=
  (repAttempts 3 4 Char.isDigit t).findSome? fun pr =>
    match pr.2 with
    | c :: rest =>
      if c.toLower = 'x' then
        (repAttempts 3 4 Char.isDigit rest).head?.map fun pr2 => chStr pr2.1
      else none
    | [] => none

/-- Head match of `/quality[=_-]?(\w+)/i`: an optional separator is consumed
greedily, backtracking to the zero-width option when no word character
follows it. -/
def reQualityAt (t : List Char) : Option String :=
  (ciHeadMatch "quality".toList t).bind fun rest =>
    let withSep : Option String :=
      match rest with
      | c :: cs =>
        if c = '=' || c = '_' || c = '-' then
          let w := cs.takeWhile isWordChar
          if w.isEmpty then none else some (chStr w)
        else none
      | [] => none
    match withSep with
    | some v => some v
    | none =>
      let w := rest.takeWhile isWordChar
      if w.isEmpty then none else some (chStr w)

/-- Head match of `/itag[=_](\d+)/i`, capturing the digits. -/
def reItagAt (t : List Char) : Option String :=
  (ciHeadMatch "itag".toList t).bind fun rest =>
    match rest with
    | c :: cs =>
      if c = '=' || c = '_' then
        let d := cs.takeWhile Char.isDigit
        if d.isEmpty then none else some (chStr d)
      else none
    | [] => none

/-- Head match of `/res[=_](\d+)/i`, capturing the digits. -/
def reResAt (t : List Char) : Option String :=
  (ciHeadMatch "res".toList t).bind fun rest =>
    match rest with
    | c :: cs =>
      if c = '=' || c = '_' then
        let d := cs.takeWhile Char.isDigit
        if d.isEmpty then none else some (chStr d)
      else none
    | [] => none

/-- Alternatives of the textual quality token pattern, in source order. -/
def qualityAlts : List String :=
  ["hd", "sd", "hq", "lq", "4k", "2k", "1080", "720", "480", "360", "240", "144"]

/-- Head match of `/[_-](hd|sd|hq|lq|4k|2k|1080|720|480|360|240|144)[_-]/i`,
capturing the token with its original casing. -/
def reTextualAt (t : List Char) : Option String :=
  match t with
  | c :: cs =>
    if c = '_' || c = '-' then
      qualityAlts.findSome? fun alt =>
        (ciHeadMatch alt.toList cs).bind fun rest =>
          match rest with
          | d :: _ =>
            if d = '_' || d = '-' then some (chStr (cs.take alt.toList.length)) else none
          | [] => none
    else none
  | [] => none

/-- Leftmost match of a head matcher over the subject, as JS regex search. -/
def scanPat (f : List Char → Option String) (u : List Char) : Option String :=
  u.tails.findSome? f

/-- The seven quality patterns in the order the source lists them. -/
def qualityRules : List (List Char → Option String) :=
  [reNNNpAt, reWxHAt, reWxHSndAt, reQualityAt, reItagAt, reResAt, reTextualAt]

/-- Digits-only string to its decimal value (`parseInt` on an all-digit
capture). -/
def digitsToNat (cs : List Char) : Nat :=
  cs.foldl (fun a c => a * 10 + (c.toNat - 48)) 0

/-- The YouTube itag lookup table from the source. -/
def itagMap (n : Nat) : Option String :=
  match n with
  | 18 => some "360p" | 22 => some "720p" | 37 => some "1080p" | 38 => some "3072p"
  | 82 => some "360p 3D" | 83 => some "480p 3D" | 84 => some "720p 3D" | 85 => some "1080p 3D"
  | 133 => some "240p" | 134 => some "360p" | 135 => some "480p" | 136 => some "720p"
  | 137 => some "1080p" | 138 => some "2160p" | 160 => some "144p" | 242 => some "240p"
  | 243 => some "360p" | 244 => some "480p" | 247 => some "720p" | 248 => some "1080p"
  | 271 => some "1440p" | 313 => some "2160p"
  | _ => none

/-- Post-processing of a matched capture: all-digit values are parsed, values
at least 1000 get a `p` suffix, known itags map through the table, and
anything else is returned verbatim. -/
def qualityPostProcess (val : String) : String :=
  if (!val.toList.isEmpty) && val.toList.all Char.isDigit then
    let num := digitsToNat val.toList
    if num ≥ 1000 then toString num ++ "p"
    else
      match itagMap num with
      | some q => q
      | none => val
  else val

/-- `detectQuality(url)`: first pattern that matches anywhere in the URL
wins; its capture is post-processed; no match gives no label. -/
def detectQuality (url : String) : Option String :=
  (qualityRules.findSome? fun r => scanPat r url.toList).map qualityPostProcess

/-! ## Header handling and number parsing -/

/-- One entry of `responseHeaders`. -/
structure HttpHeader where
  name : String
  value : Option String
deriving DecidableEq, Repr

/-- `WebResponseDetails` as destructured by `handleResponse`. -/
structure WebResponseDetails where
  url : String
  tabId : Int
  type : String
  statusCode : Option Int
  responseHeaders : Option (List HttpHeader)
deriving DecidableEq, Repr

/-- ASCII lowering on strings. -/
def lowerString (s : String) : String := chStr (lcChars s)

/-- `responseHeaders?.find(h => h.name.toLowerCase() === nm)?.value`,
collapsed to one `Option`. -/
def headerValue (hs : Option (List HttpHeader)) (nm : String) : Option String :=
  (hs.bind fun l => l.find? fun h => lowerString h.name = nm).bind fun h => h.value

/-- JS whitespace skipped by `parseInt`. -/
def isJsSpace (c : Char) : Bool :=
  c = ' ' || c = '\t' || c = '\n' || c = '\r' || c = '\x0b' || c = '\x0c'

/-- The longest leading digit run, or `none` when there is none. -/
def leadingDigits (cs : List Char) : Option Nat :=
  let ds := cs.takeWhile Char.isDigit
  if ds.isEmpty then none else some (digitsToNat ds)

/-- `parseInt(s, 10)`: skip whitespace, optional sign, leading decimal
digits; a digitless input yields `NaN`, modelled as `none`. -/
def parseIntJS (s : String) : Option Int :=
  let cs := s.toList.dropWhile isJsSpace
  match cs with
  | '-' :: rest => (leadingDigits rest).map fun n => -(n : Int)
  | '+' :: rest => (leadingDigits rest).map fun n => (n : Int)
  | rest => (leadingDigits rest).map fun n => (n : Int)

/-- `contentLength ? parseInt(contentLength, 10) : undefined`: an absent or
empty header gives no size; an unparseable one gives `NaN`, modelled as
`none` (see header note). -/
def jsSize (contentLength : Option String) : Option Int :=
  match contentLength with
  | none => none
  | some s => if s = "" then none else parseIntJS s

/-! ## StreamDetector state and insertion -/

/-- The per-tab stream store, `Map<number, DetectedStream[]>`. -/
def StreamsMap := Int → Option (List DetectedStream)

/-- `Map.prototype.get`. -/
def StreamsMap.get (m : StreamsMap) (t : Int) : Option (List DetectedStream) := m t

/-- `Map.prototype.set`. -/
def StreamsMap.set (m : StreamsMap) (t : Int) (l : List DetectedStream) : StreamsMap :=
  fun t2 => if t2 = t then some l else m t2

/-- `Map.prototype.delete`. -/
def StreamsMap.del (m : StreamsMap) (t : Int) : StreamsMap :=
  fun t2 => if t2 = t then none else m t2

/-- The store of a freshly constructed detector. -/
def emptyStreams : StreamsMap := fun _ => none

/-- `getStreams(tabId)`: `this.streams.get(tabId) || []`. -/
def getStreams (m : StreamsMap) (tabId : Int) : List DetectedStream :=
  (m.get tabId).getD []

/-- `clearStreams(tabId)`. -/
def clearStreams (m : StreamsMap) (tabId : Int) : StreamsMap := m.set tabId []

/-- Query-string stripping, `url.split('?')[0]`: the prefix before the first
`?` (the whole string when there is none). -/
def stripQuery (url : String) : String := chStr (url.toList.takeWhile fun c => c ≠ '?')

/-- `addStream(tabId, stream)`: exact-URL duplicates are dropped, same-base
same-kind near-duplicates are dropped except for `hls`/`dash`, then the
stream is appended and the oldest entry shifted out above 30 entries. -/
def addStream (tabId : Int) (stream : DetectedStream) (m : StreamsMap) : StreamsMap :=
  let existing := (m.get tabId).getD []
  if existing.any fun s => s.url == stream.url then m
  else
    let baseUrl := stripQuery stream.url
    let hasSimilar := existing.any fun s => stripQuery s.url == baseUrl && s.type == stream.type
    if hasSimilar && !(stream.type == .hls) && !(stream.type == .dash) then m
    else
      let pushed := existing ++ [stream]
      let bounded := if pushed.length > 30 then pushed.drop 1 else pushed
      m.set tabId bounded

/-! ## handleResponse -/

/-- The lowered content type of a response,
`…find('content-type')?.value?.toLowerCase() || ''`. -/
def respContentType (d : WebResponseDetails) : String :=
  ((headerValue d.responseHeaders "content-type").map lowerString).getD ""

/-- The parsed size of a response from its `content-length` header. -/
def respSize (d : WebResponseDetails) : Option Int :=
  jsSize (headerValue d.responseHeaders "content-length")

/-- `statusCode && (statusCode < 200 || statusCode >= 400)`: the failed-status
test, with JS truthiness on the status. -/
def statusFails (sc : Option Int) : Bool :=
  match sc with
  | some n => (n != 0) && (decide (n < 200) || decide (n ≥ 400))
  | none => false

/-- `type === 'media' || type === 'xmlhttprequest' || type === 'other'`. -/
def isMediaType (ty : String) : Bool :=
  ty == "media" || ty == "xmlhttprequest" || ty == "other"

/-- `isVideoMime || isVideoUrl || (isMediaType && looksLikeVideo(url, ct))`:
the acceptance disjunction of `handleResponse`. -/
def classifierAccepts (d : WebResponseDetails) : Bool :=
  videoMimeMatch (respContentType d) || videoUrlMatch d.url ||
    (isMediaType d.type && looksLikeVideo d.url (respContentType d))

/-- `size && size < 5000 && streamType !== 'hls' && streamType !== 'dash'`:
the size-floor rejection test, with JS truthiness on the size. -/
def sizeFloorHits (size : Option Int) (t : StreamType) : Bool :=
  match size with
  | some n => (n != 0) && decide (n < 5000) && !(t == .hls) && !(t == .dash)
  | none => false

/-- The `DetectedStream` record literal built by `handleResponse`. -/
def mkStream (now : Nat) (d : WebResponseDetails) : DetectedStream :=
  { url := d.url
    type := detectStreamType d.url (respContentType d)
    size := respSize d
    quality := detectQuality d.url
    contentType := if respContentType d = "" then none else some (respContentType d)
    timestamp := now }

/-- `handleResponse(details)` acting on the store; `now` stands for
`Date.now()`. -/
def handleResponse (now : Nat) (m : StreamsMap) (d : WebResponseDetails) : StreamsMap :=
  if d.tabId < 0 then m
  else if statusFails d.statusCode then m
  else if excludeMatch d.url then m
  else if classifierAccepts d then
    if sizeFloorHits (respSize d) (detectStreamType d.url (respContentType d)) then m
    else addStream d.tabId (mkStream now d) m
  else m

/-! ## Lifecycle events (the listeners of `setupListeners`) -/

/-- One observable event of the detector: a network response, a tab removal,
or a tab update carrying `changeInfo.status` and `changeInfo.url`. -/
inductive DetectorEvent where
  | response (now : Nat) (details : WebResponseDetails)
  | tabRemoved (tabId : Int)
  | tabUpdated (tabId : Int) (status : Option String) (url : Option String)
deriving Repr

/-- JS truthiness of an optional string. -/
def jsTruthy (s : Option String) : Bool :=
  match s with
  | none => false
  | some v => v != ""

/-- The state transition of one event, from the registered listeners:
responses go through `handleResponse`, `tabs.onRemoved` deletes the entry,
and `tabs.onUpdated` resets the list when a navigation starts loading. -/
def stepEvent (m : StreamsMap) (e : DetectorEvent) : StreamsMap :=
  match e with
  | .response now d => handleResponse now m d
  | .tabRemoved t => m.del t
  | .tabUpdated t status url =>
    if status == some "loading" && jsTruthy url then m.set t [] else m

/-- The store after a sequence of events on a fresh detector. -/
def runEvents (es : List DetectorEvent) : StreamsMap :=
  es.foldl stepEvent emptyStreams

/-! ## DOM model for VideoDetector (content/videoDetector.ts)

DOM queries are shallowly embedded as fields of a document snapshot: each
field holds what the corresponding query of the source would return.  URLs
read from `.src` properties are the resolved absolute URLs the DOM exposes. -/

/-- `startsWith` on strings. -/
def jsStartsWith (s pre : String) : Bool := pre.toList.isPrefixOf s.toList

/-- `String.prototype.trim` on the ASCII whitespace occurring here. -/
def jsTrim (s : String) : String :=
  chStr (((s.toList.dropWhile isJsSpace).reverse.dropWhile isJsSpace).reverse)

/-- One occurrence of `pat` replaced by `rep`:
`String.prototype.replace(pat, rep)` with a plain-string pattern. -/
def replaceOnceL (pat rep : List Char) : List Char → List Char
  | [] => []
  | c :: cs =>
    if pat.isPrefixOf (c :: cs) then rep ++ (c :: cs).drop pat.length
    else c :: replaceOnceL pat rep cs

/-- `replace` on strings, first occurrence only. -/
def replaceOnce (s pat rep : String) : String :=
  chStr (replaceOnceL pat.toList rep.toList s.toList)

/-- Split on one character, `String.prototype.split(sep)`. -/
def splitOnChar (sep : Char) : List Char → List (List Char)
  | [] => [[]]
  | c :: cs =>
    let r := splitOnChar sep cs
    if c = sep then [] :: r
    else
      match r with
      | h :: t => (c :: h) :: t
      | [] => [[c]]

/-- `Number(str)` on the integral inputs occurring here: an empty or blank
string is `0`, an optionally signed digit string is its value, anything else
is `NaN`, modelled as `none`. -/
def jsNumber (s : String) : Option Int :=
  let cs := (jsTrim s).toList
  match cs with
  | [] => some 0
  | '-' :: rest => if !rest.isEmpty && rest.all Char.isDigit then
      some (-(digitsToNat rest : Int)) else none
  | '+' :: rest => if !rest.isEmpty && rest.all Char.isDigit then
      some (digitsToNat rest : Int) else none
  | rest => if rest.all Char.isDigit then some (digitsToNat rest : Int) else none

/-- `parseDuration(durationStr)`: colon-separated parts to seconds; a `NaN`
part (modelled `none`) poisons the result as in JS arithmetic. -/
def parseDuration (s : String) : Option Int :=
  let parts := (splitOnChar ':' s.toList).map fun p => jsNumber (chStr p)
  match parts with
  | [some h, some m, some sec] => some (h * 3600 + m * 60 + sec)
  | [_, _, _] => none
  | [some m, some sec] => some (m * 60 + sec)
  | [_, _] => none
  | _ => some 0

/-- `VideoPlatform` from the source type declarations. -/
inductive VideoPlatform where
  | youtube | vimeo | html5 | stream | unknown
deriving DecidableEq, Repr

/-- `VideoInfo` from the source type declarations.  `duration` is in whole
seconds (`none` for absent or non-finite values). -/
structure VideoInfo where
  platform : VideoPlatform
  videoId : Option String
  title : Option String
  duration : Option Int
  url : String
  thumbnailUrl : Option String
  streams : Option (List DetectedStream)
  sourceUrl : Option String
deriving DecidableEq, Repr

/-- A `source` element: its resolved `src` (empty when absent) and its
`type` attribute. -/
structure SourceEl where
  src : String
  typeAttr : Option String
deriving DecidableEq, Repr

/-- A `video` element snapshot.  `width`/`height` are the rendered bounding
box; `containerHeading` is the text content found by the
closest-container heading query of `extractVideoTitle`; `duration` is
`none` when `video.duration` is not finite. -/
structure VideoEl where
  src : String
  currentSrc : String
  width : Nat
  height : Nat
  titleAttr : String
  ariaLabel : Option String
  containerHeading : Option String
  duration : Option Int
  sources : List SourceEl
deriving DecidableEq, Repr

/-- An `iframe` element snapshot. -/
structure IframeEl where
  src : String
  dataSrc : Option String
  titleAttr : String
deriving DecidableEq, Repr

/-- A document snapshot.  `ytSelectorTitle` is the first non-blank text the
YouTube title selector list finds; `ytDurationText` the text of
`.ytp-time-duration`; `firstH1` the text of the first `h1`;
`looseSources` the `source` elements with no `video` ancestor. -/
structure DomDocument where
  href : String
  title : String
  firstH1 : Option String
  ytSelectorTitle : Option String
  ytDurationText : Option String
  videos : List VideoEl
  iframes : List IframeEl
  looseSources : List SourceEl
deriving DecidableEq, Repr

/-! ## VideoDetector -/

/-- Leftmost occurrence of any of `pres` (alternatives in order per
position) followed by a non-empty maximal run of characters outside
`stops`, capturing the run.  Models the case-sensitive id-extraction
regexes `(?:p1|p2|…)([^stops]+)`. -/
def captureAfterAny (pres : List String) (stops : List Char) (cs : List Char) : Option String :=
  cs.tails.findSome? fun t =>
    pres.findSome? fun p =>
      if p.toList.isPrefixOf t then
        let run := (t.drop p.toList.length).takeWhile fun c => !(stops.contains c)
        if run.isEmpty then none else some (chStr run)
      else none

/-- Leftmost occurrence of `pre` followed by a non-empty digit run,
capturing the digits: the `(\d+)` id-extraction regexes. -/
def capDigitsAfter (pre : String) (s : String) : Option String :=
  s.toList.tails.findSome? fun t =>
    if pre.toList.isPrefixOf t then
      let run := (t.drop pre.toList.length).takeWhile Char.isDigit
      if run.isEmpty then none else some (chStr run)
    else none

/-- `extractYouTubeVideoId(url)`: the three URL-shape patterns in order. -/
def extractYouTubeVideoId (url : String) : Option String :=
  match captureAfterAny ["youtube.com/watch?v=", "youtu.be/", "youtube.com/embed/"]
      ['&', '\n', '?', '#'] url.toList with
  | some v => some v
  | none =>
    match captureAfterAny ["youtube.com/shorts/"] ['&', '\n', '?', '#'] url.toList with
    | some v => some v
    | none => captureAfterAny ["youtube.com/live/"] ['&', '\n', '?', '#'] url.toList

/-- `detectYouTube()`: page-URL platform scan for YouTube. -/
def detectYouTube (doc : DomDocument) : Option VideoInfo :=
  if !(strIncludes doc.href "youtube.com") && !(strIncludes doc.href "youtu.be") then none
  else
    match extractYouTubeVideoId doc.href with
    | none => none
    | some vid =>
      let title :=
        match doc.ytSelectorTitle with
        | some t => t
        | none => replaceOnce doc.title " - YouTube" ""
      some { platform := .youtube, videoId := some vid, title := some title,
             duration := doc.ytDurationText.bind fun t => parseDuration t,
             url := doc.href,
             thumbnailUrl := some ("https://img.youtube.com/vi/" ++ vid ++ "/maxresdefault.jpg"),
             streams := none, sourceUrl := none }

/-- `detectVimeo()`: page-URL platform scan for Vimeo. -/
def detectVimeo (doc : DomDocument) : Option VideoInfo :=
  if !(strIncludes doc.href "vimeo.com") then none
  else
    match capDigitsAfter "vimeo.com/" doc.href with
    | none => none
    | some vid =>
      let title :=
        match doc.firstH1 with
        | some h => if jsTrim h ≠ "" then jsTrim h else doc.title
        | none => doc.title
      some { platform := .vimeo, videoId := some vid, title := some title,
             duration := none, url := doc.href,
             thumbnailUrl := some ("https://vumbnail.com/" ++ vid ++ ".jpg"),
             streams := none, sourceUrl := none }

/-- `detectStreamTypeFromUrl(url)`: case-insensitive substring chain. -/
def detectStreamTypeFromUrl (url : String) : StreamType :=
  let u := lcChars url
  if containsSub u ".m3u8".toList then .hls
  else if containsSub u ".mpd".toList then .dash
  else if containsSub u ".mp4".toList then .mp4
  else if containsSub u ".webm".toList then .webm
  else if containsSub u ".flv".toList then .flv
  else .unknown

/-- `extractVideoTitle(video)` followed by its caller's `|| default`
handling: the raw chain result, empty when every step is blank. -/
def extractVideoTitle (doc : DomDocument) (video : VideoEl) : String :=
  if video.titleAttr ≠ "" then video.titleAttr
  else if (video.ariaLabel.getD "") ≠ "" then video.ariaLabel.getD ""
  else
    match video.containerHeading with
    | some h => if h ≠ "" then jsTrim h else doc.title
    | none => doc.title

/-- `extractVideoSources(video)`: the direct `src` followed by the nested
`source` tags, skipping blanks and `blob:` URLs. -/
def extractVideoSources (now : Nat) (video : VideoEl) : List DetectedStream :=
  let main : List DetectedStream :=
    if video.src ≠ "" && !(jsStartsWith video.src "blob:") then
      [{ url := video.src, type := detectStreamTypeFromUrl video.src, size := none,
         quality := none, contentType := none, timestamp := now }]
    else []
  main ++ video.sources.filterMap fun s =>
    if s.src ≠ "" && !(jsStartsWith s.src "blob:") then
      some { url := s.src, type := detectStreamTypeFromUrl s.src, size := none,
             quality := none,
             contentType :=
               match s.typeAttr with
               | some t => if t = "" then none else some t
               | none => none,
             timestamp := now }
    else none

/-- The `forEach` body of `detectAllHTML5Videos`, walking the `video`
elements with their position index: elements under 100×100 rendered pixels
are skipped, the rest become candidates. -/
def html5Go (doc : DomDocument) (now : Nat) (idx : Nat) : List VideoEl → List VideoInfo
  | [] => []
  | video :: rest =>
    if video.width * video.height < 10000 then html5Go doc now (idx + 1) rest
    else
      let src0 := if video.src ≠ "" then video.src else video.currentSrc
      let sourceUrl :=
        if src0 ≠ "" then src0
        else
          match video.sources.head? with
          | some s => s.src
          | none => ""
      let isBlobUrl := jsStartsWith sourceUrl "blob:"
      let t := extractVideoTitle doc video
      { platform := .html5, videoId := none,
        title := some (if t ≠ "" then t else "비디오 " ++ toString (idx + 1)),
        duration := video.duration, url := doc.href, thumbnailUrl := none,
        sourceUrl := if isBlobUrl then none else some sourceUrl,
        streams := some (extractVideoSources now video) } :: html5Go doc now (idx + 1) rest

/-- `detectAllHTML5Videos()`: every rendered `video` element of at least
100×100 pixels becomes a candidate, in document order. -/
def detectAllHTML5Videos (doc : DomDocument) (now : Nat) : List VideoInfo :=
  html5Go doc now 0 doc.videos

/-- `detectIframeVideos()`: YouTube embeds, Vimeo players, then generic
video-keyword iframes. -/
def detectIframeVideos (doc : DomDocument) : List VideoInfo :=
  doc.iframes.filterMap fun iframe =>
    let src0 := if iframe.src ≠ "" then iframe.src else iframe.dataSrc.getD ""
    match captureAfterAny ["youtube.com/embed/"] ['?', '&'] src0.toList with
    | some vid =>
      some { platform := .youtube, videoId := some vid,
             title := some (if iframe.titleAttr ≠ "" then iframe.titleAttr else "YouTube 비디오"),
             duration := none, url := src0,
             thumbnailUrl := some ("https://img.youtube.com/vi/" ++ vid ++ "/maxresdefault.jpg"),
             streams := none, sourceUrl := none }
    | none =>
      match capDigitsAfter "player.vimeo.com/video/" src0 with
      | some vid =>
        some { platform := .vimeo, videoId := some vid,
               title := some (if iframe.titleAttr ≠ "" then iframe.titleAttr else "Vimeo 비디오"),
               duration := none, url := src0,
               thumbnailUrl := some ("https://vumbnail.com/" ++ vid ++ ".jpg"),
               streams := none, sourceUrl := none }
      | none =>
        if strIncludes src0 "video" || strIncludes src0 "player" || strIncludes src0 "embed" then
          some { platform := .html5, videoId := none,
                 title := some (if iframe.titleAttr ≠ "" then iframe.titleAttr else "임베드 비디오"),
                 duration := none, url := src0, thumbnailUrl := none,
                 streams := none, sourceUrl := none }
        else none

/-- `detectSourceTags()`: `source` elements outside any `video`, selected by
the `.mp4`/`.webm`/`.m3u8` attribute selectors. -/
def detectSourceTags (doc : DomDocument) (now : Nat) : List VideoInfo :=
  (doc.looseSources.filter fun s =>
      strIncludes s.src ".mp4" || strIncludes s.src ".webm" || strIncludes s.src ".m3u8").filterMap
    fun source =>
      if source.src ≠ "" then
        some { platform := .html5, videoId := none, title := some doc.title,
               duration := none, url := doc.href, thumbnailUrl := none,
               sourceUrl := some source.src,
               streams := some [{ url := source.src, type := detectStreamTypeFromUrl source.src,
                                  size := none, quality := none, contentType := none,
                                  timestamp := now }] }
      else none

/-- `video.videoId || video.sourceUrl || video.url`: the deduplication key. -/
def dedupKey (v : VideoInfo) : String :=
  if v.videoId.getD "" ≠ "" then v.videoId.getD ""
  else if v.sourceUrl.getD "" ≠ "" then v.sourceUrl.getD ""
  else v.url

/-- First-occurrence filter over deduplication keys. -/
def dedupGo (seen : List String) : List VideoInfo → List VideoInfo
  | [] => []
  | v :: rest =>
    if seen.contains (dedupKey v) then dedupGo seen rest
    else v :: dedupGo (dedupKey v :: seen) rest

/-- `deduplicateVideos(videos)`. -/
def deduplicateVideos (videos : List VideoInfo) : List VideoInfo := dedupGo [] videos

/-- `detectAll()`: the five strategies in order, then deduplication. -/
def detectAll (doc : DomDocument) (now : Nat) : List VideoInfo :=
  let videos :=
    (match detectYouTube doc with | some y => [y] | none => []) ++
    (match detectVimeo doc with | some v => [v] | none => []) ++
    detectAllHTML5Videos doc now ++
    detectIframeVideos doc ++
    detectSourceTags doc now
  deduplicateVideos videos

/-! ## Concrete response fixtures -/

/-- An ad-tracking URL that also carries a `.mp4` extension. -/
def adDetails : WebResponseDetails :=
  { url := "https://cdn.example.com/ad/tracking/video.mp4?x=1", tabId := 2, type := "media",
    statusCode := some 200,
    responseHeaders := some [{ name := "Content-Type", value := some "video/mp4" }] }

/-- A `.mp4` URL served with an `image/png` content type. -/
def pngDetails : WebResponseDetails :=
  { url := "https://e.com/a.mp4", tabId := 1, type := "image", statusCode := some 200,
    responseHeaders := some [{ name := "Content-Type", value := some "image/png" }] }

/-- An `image/png` response whose URL matches no video rule. -/
def pngBinDetails : WebResponseDetails :=
  { url := "https://e.com/x.bin", tabId := 1, type := "image", statusCode := some 200,
    responseHeaders := some [{ name := "Content-Type", value := some "image/png" }] }

/-- The same mp4 resource fetched with two cache-busting query strings. -/
def dMp4T1 : WebResponseDetails :=
  { url := "https://e.com/video.mp4?t=1", tabId := 1, type := "media", statusCode := some 200,
    responseHeaders := some [{ name := "Content-Type", value := some "video/mp4" }] }

/-- Second fetch of the mp4 resource, differing only in the query. -/
def dMp4T2 : WebResponseDetails :=
  { url := "https://e.com/video.mp4?t=2", tabId := 1, type := "media", statusCode := some 200,
    responseHeaders := some [{ name := "Content-Type", value := some "video/mp4" }] }

/-- First HLS segment fetch. -/
def dSeg1 : WebResponseDetails :=
  { url := "https://e.com/seg1.ts", tabId := 1, type := "media", statusCode := some 200,
    responseHeaders := none }

/-- Second HLS segment fetch with a distinct path. -/
def dSeg2 : WebResponseDetails :=
  { url := "https://e.com/seg2.ts", tabId := 1, type := "media", statusCode := some 200,
    responseHeaders := none }

/-- An mp4 response reporting `content-length: 0`. -/
def dZeroLen : WebResponseDetails :=
  { url := "https://e.com/a.mp4", tabId := 1, type := "media", statusCode := some 200,
    responseHeaders := some [{ name := "content-type", value := some "video/mp4" },
                             { name := "content-length", value := some "0" }] }

/-- An mp4 response reporting `content-length: 1200`. -/
def d1200mp4 : WebResponseDetails :=
  { url := "https://e.com/a.mp4", tabId := 1, type := "media", statusCode := some 200,
    responseHeaders := some [{ name := "content-type", value := some "video/mp4" },
                             { name := "content-length", value := some "1200" }] }

/-- An HLS manifest response reporting `content-length: 1200`. -/
def d1200hls : WebResponseDetails :=
  { url := "https://e.com/a.m3u8", tabId := 1, type := "media", statusCode := some 200,
    responseHeaders := some
      [{ name := "content-type", value := some "application/vnd.apple.mpegurl" },
       { name := "content-length", value := some "1200" }] }

/-- An mp4 response with no `content-length` header at all. -/
def dNoLen : WebResponseDetails :=
  { url := "https://e.com/a.mp4", tabId := 1, type := "media", statusCode := some 200,
    responseHeaders := some [{ name := "content-type", value := some "video/mp4" }] }

/-- A placeholder stream for filling a session to capacity. -/
def demoStream (i : Nat) : DetectedStream :=
  { url := "https://e.com/v" ++ toString i ++ ".bin", type := .unknown, size := none,
    quality := none, contentType := none, timestamp := 0 }

/-- A session already holding 30 distinct streams. -/
def demoState : StreamsMap := emptyStreams.set 1 ((List.range 30).map demoStream)

/-- The store after the first mp4 fetch. -/
def simState : StreamsMap := runEvents [.response 0 dMp4T1]

/-- The candidate built from the second mp4 fetch. -/
def simStream : DetectedStream := mkStream 1 dMp4T2

/-! ## Spec-side formulation of stream-kind resolution -/

/-- The kind checks in the order `detectStreamType` runs them. -/
def kindChecklist : List (StreamType × (List Char → List Char → Bool)) :=
  [(.hls, kindCheckHls), (.dash, kindCheckDash), (.mp4, kindCheckMp4),
   (.webm, kindCheckWebm), (.flv, kindCheckFlv), (.hls, kindCheckSegment)]

/-- First matching entry of a kind checklist, defaulting to `unknown`: the
first-match-wins formulation of stream-kind resolution. -/
def firstMatchKind : List (StreamType × (List Char → List Char → Bool)) →
    List Char → List Char → StreamType
  | [], _, _ => .unknown
  | (k, chk) :: rest, u, c => if chk u c then k else firstMatchKind rest u c

/-- Stream-kind resolution stated as a walk over the fixed kind order. -/
def firstKindMatch (url ct : String) : StreamType :=
  firstMatchKind kindChecklist (lcChars url) (lcChars ct)

/-! ## Store lemmas -/

theorem getStreams_set (m : StreamsMap) (t : Int) (l : List DetectedStream) (t2 : Int) :
    getStreams (m.set t l) t2 = if t2 = t then l else getStreams m t2 := by
  unfold getStreams StreamsMap.set StreamsMap.get
  by_cases h : t2 = t <;> simp [h]

theorem getStreams_del (m : StreamsMap) (t : Int) (t2 : Int) :
    getStreams (m.del t) t2 = if t2 = t then [] else getStreams m t2 := by
  unfold getStreams StreamsMap.del StreamsMap.get
  by_cases h : t2 = t <;> simp [h]

theorem getStreams_empty (t : Int) : getStreams emptyStreams t = [] := rfl

/-- Unfolding of `addStream` through `getStreams`. -/
theorem addStream_eq (t : Int) (s : DetectedStream) (m : StreamsMap) :
    addStream t s m =
      if (getStreams m t).any (fun e => e.url == s.url) then m
      else if ((getStreams m t).any fun e =>
          stripQuery e.url == stripQuery s.url && e.type == s.type)
            && !(s.type == .hls) && !(s.type == .dash) then m
      else m.set t (if ((getStreams m t) ++ [s]).length > 30
          then ((getStreams m t) ++ [s]).drop 1 else (getStreams m t) ++ [s]) := rfl

/-! ## Preservation of the per-tab invariants -/

theorem addStream_nodup_preserved {m : StreamsMap}
    (h : ∀ t2, ((getStreams m t2).map DetectedStream.url).Nodup)
    (t : Int) (s : DetectedStream) (t2 : Int) :
    ((getStreams (addStream t s m) t2).map DetectedStream.url).Nodup := by
  rw [addStream_eq]
  split
  · exact h t2
  rename_i hdup
  split
  · exact h t2
  rw [getStreams_set]
  split
  · have base : ((getStreams m t ++ [s]).map DetectedStream.url).Nodup := by
      rw [List.map_append]
      refine List.Nodup.append (h t) (List.nodup_singleton _) ?_
      intro a ha hb
      rcases List.mem_map.mp ha with ⟨e, he, heq⟩
      rcases List.mem_singleton.mp hb with rfl
      apply hdup
      exact List.any_eq_true.mpr ⟨e, he, by simp [heq]⟩
    split
    · exact ((List.drop_sublist 1 _).map _).nodup base
    · exact base
  · exact h t2

theorem addStream_length_preserved {m : StreamsMap}
    (h : ∀ t2, (getStreams m t2).length ≤ 30)
    (t : Int) (s : DetectedStream) (t2 : Int) :
    (getStreams (addStream t s m) t2).length ≤ 30 := by
  rw [addStream_eq]
  split
  · exact h t2
  split
  · exact h t2
  rw [getStreams_set]
  split
  · have hlen := h t
    split
    · rename_i hgt
      simp only [List.length_drop, List.length_append, List.length_singleton]
      omega
    · rename_i hle
      simp only [List.length_append, List.length_singleton, gt_iff_lt, not_lt] at hle ⊢
      omega
  · exact h t2

theorem handleResponse_nodup_preserved {m : StreamsMap}
    (h : ∀ t2, ((getStreams m t2).map DetectedStream.url).Nodup)
    (now : Nat) (d : WebResponseDetails) (t2 : Int) :
    ((getStreams (handleResponse now m d) t2).map DetectedStream.url).Nodup := by
  unfold handleResponse
  split
  · exact h t2
  split
  · exact h t2
  split
  · exact h t2
  split
  · split
    · exact h t2
    · exact addStream_nodup_preserved h _ _ t2
  · exact h t2

theorem handleResponse_length_preserved {m : StreamsMap}
    (h : ∀ t2, (getStreams m t2).length ≤ 30)
    (now : Nat) (d : WebResponseDetails) (t2 : Int) :
    (getStreams (handleResponse now m d) t2).length ≤ 30 := by
  unfold handleResponse
  split
  · exact h t2
  split
  · exact h t2
  split
  · exact h t2
  split
  · split
    · exact h t2
    · exact addStream_length_preserved h _ _ t2
  · exact h t2

theorem stepEvent_nodup_preserved {m : StreamsMap}
    (h : ∀ t2, ((getStreams m t2).map DetectedStream.url).Nodup)
    (e : DetectorEvent) (t2 : Int) :
    ((getStreams (stepEvent m e) t2).map DetectedStream.url).Nodup := by
  cases e with
  | response now d => exact handleResponse_nodup_preserved h now d t2
  | tabRemoved t =>
    simp only [stepEvent]
    rw [getStreams_del]
    split
    · simp
    · exact h t2
  | tabUpdated t status url =>
    simp only [stepEvent]
    split
    · rw [getStreams_set]
      split
      · simp
      · exact h t2
    · exact h t2

theorem stepEvent_length_preserved {m : StreamsMap}
    (h : ∀ t2, (getStreams m t2).length ≤ 30)
    (e : DetectorEvent) (t2 : Int) :
    (getStreams (stepEvent m e) t2).length ≤ 30 := by
  cases e with
  | response now d => exact handleResponse_length_preserved h now d t2
  | tabRemoved t =>
    simp only [stepEvent]
    rw [getStreams_del]
    split
    · simp
    · exact h t2
  | tabUpdated t status url =>
    simp only [stepEvent]
    split
    · rw [getStreams_set]
      split
      · simp
      · exact h t2
    · exact h t2

theorem foldl_nodup (es : List DetectorEvent) :
    ∀ m : StreamsMap, (∀ t2, ((getStreams m t2).map DetectedStream.url).Nodup) →
      ∀ t2, ((getStreams (es.foldl stepEvent m) t2).map DetectedStream.url).Nodup := by
  induction es with
  | nil => exact fun m h => h
  | cons e rest ih =>
    intro m h
    exact ih _ fun t2 => stepEvent_nodup_preserved h e t2

theorem foldl_length (es : List DetectorEvent) :
    ∀ m : StreamsMap, (∀ t2, (getStreams m t2).length ≤ 30) →
      ∀ t2, (getStreams (es.foldl stepEvent m) t2).length ≤ 30 := by
  induction es with
  | nil => exact fun m h => h
  | cons e rest ih =>
    intro m h
    exact ih _ fun t2 => stepEvent_length_preserved h e t2

/-- C3: for every session and every sequence of observed events, the list
`getStreams` returns never contains two entries with the same `url`:
exact-URL duplicates are rejected at insertion and the uniqueness survives
eviction, navigation reset and session close. -/
theorem getStreams_urls_nodup (es : List DetectorEvent) (tabId : Int) :
    ((getStreams (runEvents es) tabId).map DetectedStream.url).Nodup := by
  refine foldl_nodup es emptyStreams (fun t2 => ?_) tabId
  rw [getStreams_empty]
  exact List.nodup_nil

/-- C4: for every session the stream list never exceeds the capacity of 30,
and an accepted insertion into a full list appends the new entry and drops
exactly the oldest one (FIFO eviction, never the newest). -/
theorem capacity_bound_and_fifo_eviction (es : List DetectorEvent) (tabId : Int) :
    (getStreams (runEvents es) tabId).length ≤ 30 ∧
    (∀ (m : StreamsMap) (s : DetectedStream),
      (getStreams m tabId).length = 30 →
      ((getStreams m tabId).any fun e => e.url == s.url) = false →
      (((getStreams m tabId).any fun e =>
          stripQuery e.url == stripQuery s.url && e.type == s.type) = false
        ∨ s.type = .hls ∨ s.type = .dash) →
      getStreams (addStream tabId s m) tabId = (getStreams m tabId).drop 1 ++ [s]) := by
  constructor
  · refine foldl_length es emptyStreams (fun t2 => ?_) tabId
    rw [getStreams_empty]
    simp
  · intro m s hlen hdup hacc
    rw [addStream_eq, hdup]
    have hsim : (((getStreams m tabId).any fun e =>
        stripQuery e.url == stripQuery s.url && e.type == s.type)
          && !(s.type == .hls) && !(s.type == .dash)) = false := by
      rcases hacc with h | h | h
      · simp [h]
      · simp [h]
      · simp [h]
    rw [hsim]
    simp only [Bool.false_eq_true, if_false]
    have hgt : ((getStreams m tabId) ++ [s]).length > 30 := by
      simp [hlen]
    rw [getStreams_set, if_pos rfl, if_pos hgt, List.drop_append_of_le_length (by omega)]

/-- Witness for C4: an accepted insertion of a fresh stream into a session
already holding 30 entries drops the oldest and appends the newest. -/
theorem capacity_bound_and_fifo_eviction_witness :
    getStreams (addStream 1 (demoStream 99) demoState) 1
      = (getStreams demoState 1).drop 1 ++ [demoStream 99] :=
  (capacity_bound_and_fifo_eviction [] 1).2 demoState (demoStream 99)
    (by decide) (by decide) (Or.inl (by decide))

/-! ## C1: content-type image/png -/

/-- C1 counterexample: a response whose content-type is `image/png` is
nevertheless added when its URL matches the `.mp4` pattern, so `image/png`
is not always rejected. -/
theorem png_mime_accepted_with_mp4_url :
    respContentType pngDetails = "image/png" ∧
    (getStreams (handleResponse 0 emptyStreams pngDetails) 1).map DetectedStream.url
      = ["https://e.com/a.mp4"] := by
  constructor
  · decide
  · decide

/-- C1 amended: `image/png` never matches the video MIME allow-list, so such
a response is rejected whenever its URL matches neither the URL allow-list
nor the weak media-keyword heuristic; the content type alone never causes a
rejection nor an acceptance. -/
theorem png_mime_rejected_without_url_match
    (now : Nat) (m : StreamsMap) (d : WebResponseDetails)
    (hct : respContentType d = "image/png")
    (hurl : videoUrlMatch d.url = false)
    (hweak : looksLikeVideo d.url (respContentType d) = false) :
    handleResponse now m d = m := by
  have hacc : classifierAccepts d = false := by
    unfold classifierAccepts
    rw [hct] at hweak ⊢
    have hmime : videoMimeMatch "image/png" = false := by decide
    simp [hmime, hurl, hweak]
  unfold handleResponse
  split
  · rfl
  split
  · rfl
  split
  · rfl
  simp [hacc]

/-- Witness for C1 amended at a concrete `image/png` response. -/
theorem png_mime_rejected_without_url_match_witness :
    handleResponse 0 emptyStreams pngBinDetails = emptyStreams :=
  png_mime_rejected_without_url_match 0 emptyStreams pngBinDetails
    (by decide) (by decide) (by decide)

/-! ## C2: exclusion precedes every inclusion rule -/

/-- C2: a URL matching the exclusion list is rejected before any MIME or URL
inclusion rule can apply; in particular the ad-tracking mp4 URL matches the
`.mp4` inclusion pattern yet is dropped. -/
theorem exclusion_rejects_before_inclusion :
    (∀ (now : Nat) (m : StreamsMap) (d : WebResponseDetails),
        excludeMatch d.url = true → handleResponse now m d = m) ∧
    excludeMatch "https://cdn.example.com/ad/tracking/video.mp4?x=1" = true ∧
    videoUrlMatch "https://cdn.example.com/ad/tracking/video.mp4?x=1" = true ∧
    getStreams (handleResponse 0 emptyStreams adDetails) 2 = [] := by
  refine ⟨?_, by decide, by decide, by decide⟩
  intro now m d hex
  unfold handleResponse
  split
  · rfl
  split
  · rfl
  · rfl

/-- Witness for C2 at the concrete ad-tracking response. -/
theorem exclusion_rejects_before_inclusion_witness :
    handleResponse 0 emptyStreams adDetails = emptyStreams :=
  exclusion_rejects_before_inclusion.1 0 emptyStreams adDetails (by decide)

/-! ## C5: near-duplicate collapse -/

/-- C5: a candidate whose query-stripped URL and kind coincide with an
existing entry is rejected when its kind is neither `hls` nor `dash`; two
mp4 fetches differing only in the query keep one entry, two distinct `.ts`
segment fetches (kind hls) keep both. -/
theorem near_duplicate_same_kind_collapses :
    (∀ (m : StreamsMap) (t : Int) (s : DetectedStream),
        ((getStreams m t).any fun e =>
            stripQuery e.url == stripQuery s.url && e.type == s.type) = true →
        s.type ≠ .hls → s.type ≠ .dash →
        addStream t s m = m) ∧
    (getStreams (runEvents [.response 0 dMp4T1, .response 1 dMp4T2]) 1).map DetectedStream.url
      = ["https://e.com/video.mp4?t=1"] ∧
    (getStreams (runEvents [.response 0 dSeg1, .response 1 dSeg2]) 1).map DetectedStream.url
      = ["https://e.com/seg1.ts", "https://e.com/seg2.ts"] ∧
    (mkStream 0 dMp4T1).type = .mp4 ∧ (mkStream 0 dSeg1).type = .hls := by
  refine ⟨?_, by decide, by decide, by decide, by decide⟩
  intro m t s hsim h1 h2
  rw [addStream_eq]
  split
  · rfl
  have : (((getStreams m t).any fun e =>
      stripQuery e.url == stripQuery s.url && e.type == s.type)
        && !(s.type == .hls) && !(s.type == .dash)) = true := by
    simp [hsim, h1, h2]
  rw [this]
  simp

/-- Witness for C5: the second mp4 fetch is rejected against the store that
already holds the first. -/
theorem near_duplicate_same_kind_collapses_witness :
    addStream 1 simStream simState = simState :=
  near_duplicate_same_kind_collapses.1 simState 1 simStream
    (by decide) (by decide) (by decide)

/-! ## C6: the size floor -/

/-- C6 counterexample: a response that passes classification with kind mp4
and reported size 0 (smaller than 5000) is retained, because the floor only
fires on a truthy parsed size. -/
theorem size_floor_zero_length_retained :
    headerValue dZeroLen.responseHeaders "content-length" = some "0" ∧
    detectStreamType dZeroLen.url (respContentType dZeroLen) = .mp4 ∧
    (getStreams (handleResponse 0 emptyStreams dZeroLen) 1).length = 1 := by
  refine ⟨by decide, by decide, by decide⟩

/-- C6 amended: a response whose content-length parses to a nonzero value
below 5000 is discarded unless its kind is `hls` or `dash`; a 1200-byte mp4
is rejected while a 1200-byte hls manifest is retained. -/
theorem size_floor_rejects_small_nonzero
    (now : Nat) (m : StreamsMap) (d : WebResponseDetails) (n : Int)
    (hsz : respSize d = some n) (hn : n ≠ 0) (hlt : n < 5000)
    (hk1 : detectStreamType d.url (respContentType d) ≠ .hls)
    (hk2 : detectStreamType d.url (respContentType d) ≠ .dash) :
    handleResponse now m d = m ∧
    getStreams (handleResponse 0 emptyStreams d1200mp4) 1 = [] ∧
    (getStreams (handleResponse 0 emptyStreams d1200hls) 1).length = 1 := by
  refine ⟨?_, by decide, by decide⟩
  have hfloor : sizeFloorHits (respSize d)
      (detectStreamType d.url (respContentType d)) = true := by
    rw [hsz]
    unfold sizeFloorHits
    simp [hn, hlt, hk1, hk2]
  unfold handleResponse
  split
  · rfl
  split
  · rfl
  split
  · rfl
  split
  · simp [hfloor]
  · rfl

/-- Witness for C6 amended at the 1200-byte mp4 response. -/
theorem size_floor_rejects_small_nonzero_witness :
    handleResponse 0 emptyStreams d1200mp4 = emptyStreams :=
  (size_floor_rejects_small_nonzero 0 emptyStreams d1200mp4 1200
    (by decide) (by decide) (by decide) (by decide) (by decide)).1

/-! ## C7: stream-kind resolution order -/

/-- C7 counterexample: with a `.mp4` URL, an empty content type resolves to
mp4, yet a `dash` content type resolves to dash — the MIME token of an
earlier kind beats the URL extension, so the URL does not take precedence
when the two disagree. -/
theorem mime_can_override_url_extension :
    detectStreamType "https://e.com/a.mp4" "application/dash+xml" = StreamType.dash ∧
    detectStreamType "https://e.com/a.mp4" "" = StreamType.mp4 ∧
    StreamType.dash ≠ StreamType.mp4 := by
  refine ⟨by decide, by decide, by decide⟩

/-- C7 amended: resolution walks the fixed kind order hls, dash, mp4, webm,
flv, segment-as-hls, where each step matches a URL token or a MIME token and
the first match wins; `.ts`/`.m4s` segments resolve to hls exactly when no
earlier kind matched. -/
theorem stream_kind_fixed_order (url ct : String) :
    detectStreamType url ct = firstKindMatch url ct ∧
    (kindCheckHls (lcChars url) (lcChars ct) = false →
     kindCheckDash (lcChars url) (lcChars ct) = false →
     kindCheckMp4 (lcChars url) (lcChars ct) = false →
     kindCheckWebm (lcChars url) (lcChars ct) = false →
     kindCheckFlv (lcChars url) (lcChars ct) = false →
     kindCheckSegment (lcChars url) (lcChars ct) = true →
     detectStreamType url ct = .hls) ∧
    detectStreamType "https://e.com/a.mp4" "application/dash+xml" = .dash ∧
    detectStreamType "https://e.com/seg1.ts" "" = .hls ∧
    detectStreamType "https://e.com/s.m4s" "" = .hls := by
  refine ⟨rfl, ?_, by decide, by decide, by decide⟩
  intro h1 h2 h3 h4 h5 h6
  unfold detectStreamType
  simp [h1, h2, h3, h4, h5, h6]

/-- Witness for C7 amended: a `.ts` segment URL resolving to hls through the
no-earlier-match path. -/
theorem stream_kind_fixed_order_witness :
    detectStreamType "https://e.com/seg9.ts" "" = StreamType.hls :=
  (stream_kind_fixed_order "https://e.com/seg9.ts" "").2.1 (by decide) (by decide)
    (by decide) (by decide) (by decide) (by decide)

/-! ## C8: quality-rule order -/

/-- C8 counterexample: the textual quality token `_hd_` is present, yet the
itag rule fires first and yields `1080p`, so the textual rule does not
precede the itag rule as claimed. -/
theorem itag_rule_precedes_textual_rule :
    detectQuality "https://e.com/video_hd_x?itag=37" = some "1080p" ∧
    scanPat reTextualAt "https://e.com/video_hd_x?itag=37".toList = some "hd" ∧
    qualityPostProcess "hd" = "hd" ∧
    some "1080p" ≠ some ("hd" : String) := by
  refine ⟨by decide, by decide, by decide, by decide⟩

/-- C8 amended: the rules run in the order NNNp token, WxH token (both
captures), `quality=` parameter, `itag=` parameter, `res=` parameter,
textual token; the first match wins after itag post-processing, and no match
yields no label.  `itag=37` with no earlier match gives `1080p` and
`_720p_` gives `720`. -/
theorem quality_rule_order (url : String) (v w : String) :
    (scanPat reNNNpAt url.toList = some v → detectQuality url = some (qualityPostProcess v)) ∧
    (scanPat reNNNpAt url.toList = none → scanPat reWxHAt url.toList = none →
     scanPat reWxHSndAt url.toList = none → scanPat reQualityAt url.toList = none →
     scanPat reItagAt url.toList = some w → detectQuality url = some (qualityPostProcess w)) ∧
    ((∀ r ∈ qualityRules, scanPat r url.toList = none) → detectQuality url = none) ∧
    detectQuality "https://e.com/v_720p_x.mp4" = some "720" ∧
    detectQuality "https://e.com/watch?itag=37" = some "1080p" := by
  refine ⟨?_, ?_, ?_, by decide, by decide⟩
  · intro h
    rw [String.toList] at h
    simp [detectQuality, qualityRules, List.findSome?_cons, h]
  · intro h1 h2 h3 h4 h5
    rw [String.toList] at h1 h2 h3 h4 h5
    simp [detectQuality, qualityRules, List.findSome?_cons, h1, h2, h3, h4, h5]
  · intro h
    have l1 := h reNNNpAt (by simp [qualityRules])
    have l2 := h reWxHAt (by simp [qualityRules])
    have l3 := h reWxHSndAt (by simp [qualityRules])
    have l4 := h reQualityAt (by simp [qualityRules])
    have l5 := h reItagAt (by simp [qualityRules])
    have l6 := h reResAt (by simp [qualityRules])
    have l7 := h reTextualAt (by simp [qualityRules])
    rw [String.toList] at l1 l2 l3 l4 l5 l6 l7
    simp [detectQuality, qualityRules, List.findSome?_cons, l1, l2, l3, l4, l5, l6, l7]

/-- Witness for C8 amended: the NNNp rule firing on `_720p_` and the itag
rule firing on `itag=37` with every earlier rule failing. -/
theorem quality_rule_order_witness :
    detectQuality "https://e.com/v_720p_x.mp4" = some (qualityPostProcess "720") ∧
    detectQuality "https://e.com/watch?itag=37" = some (qualityPostProcess "37") :=
  ⟨(quality_rule_order "https://e.com/v_720p_x.mp4" "720" "x").1 (by decide),
   (quality_rule_order "https://e.com/watch?itag=37" "x" "37").2.1 (by decide) (by decide)
     (by decide) (by decide) (by decide)⟩

/-! ## C9: DOM scan of a video with a nested source -/

/-- C9: on a page whose only media markup is one sufficiently large `video`
element with `src` `a.mp4` and one nested `source` `b.webm`, `detectAll`
returns exactly one candidate whose stream list holds both URLs, classified
mp4 and webm respectively, with the direct source URL preserved. -/
theorem scan_video_with_nested_source
    (href ti : String) (fh yst ydt : Option String)
    (w h : Nat) (ta : String) (al ch : Option String) (dur : Option Int)
    (h1 : strIncludes href "youtube.com" = false)
    (h2 : strIncludes href "youtu.be" = false)
    (h3 : strIncludes href "vimeo.com" = false)
    (ha : 10000 ≤ w * h) (now : Nat) :
    (detectAll ⟨href, ti, fh, yst, ydt,
        [⟨"https://e.com/a.mp4", "", w, h, ta, al, ch, dur,
          [⟨"https://e.com/b.webm", none⟩]⟩], [], []⟩ now).map VideoInfo.streams =
      [some [⟨"https://e.com/a.mp4", .mp4, none, none, none, now⟩,
             ⟨"https://e.com/b.webm", .webm, none, none, none, now⟩]] ∧
    (detectAll ⟨href, ti, fh, yst, ydt,
        [⟨"https://e.com/a.mp4", "", w, h, ta, al, ch, dur,
          [⟨"https://e.com/b.webm", none⟩]⟩], [], []⟩ now).map VideoInfo.sourceUrl =
      [some "https://e.com/a.mp4"] := by
  have ha2 : ¬(w * h < 10000) := by omega
  have hyt : detectYouTube ⟨href, ti, fh, yst, ydt,
      [⟨"https://e.com/a.mp4", "", w, h, ta, al, ch, dur,
        [⟨"https://e.com/b.webm", none⟩]⟩], [], []⟩ = none := by
    unfold detectYouTube
    simp [h1, h2]
  have hvm : detectVimeo ⟨href, ti, fh, yst, ydt,
      [⟨"https://e.com/a.mp4", "", w, h, ta, al, ch, dur,
        [⟨"https://e.com/b.webm", none⟩]⟩], [], []⟩ = none := by
    unfold detectVimeo
    simp [h3]
  unfold detectAll
  rw [hyt, hvm]
  simp only [detectAllHTML5Videos, html5Go, ha2, if_false]
  exact ⟨rfl, rfl⟩

/-- Witness for C9 at a concrete 640×360 page document. -/
theorem scan_video_with_nested_source_witness :
    (detectAll ⟨"https://e.com/page", "Page", none, none, none,
        [⟨"https://e.com/a.mp4", "", 640, 360, "", none, none, none,
          [⟨"https://e.com/b.webm", none⟩]⟩], [], []⟩ 7).map VideoInfo.streams =
      [some [⟨"https://e.com/a.mp4", .mp4, none, none, none, 7⟩,
             ⟨"https://e.com/b.webm", .webm, none, none, none, 7⟩]] ∧
    (detectAll ⟨"https://e.com/page", "Page", none, none, none,
        [⟨"https://e.com/a.mp4", "", 640, 360, "", none, none, none,
          [⟨"https://e.com/b.webm", none⟩]⟩], [], []⟩ 7).map VideoInfo.sourceUrl =
      [some "https://e.com/a.mp4"] :=
  scan_video_with_nested_source "https://e.com/page" "Page" none none none 640 360 ""
    none none none (by decide) (by decide) (by decide) (by decide) 7

/-! ## C10: what the size floor can and cannot reject -/

/-- C10: a missing, `"0"`, or unparseable content-length never triggers the
size floor — such a response, once past status, exclusion and
classification, always reaches insertion — and conversely the floor only
fires on a parsed, nonzero content-length below 5000. -/
theorem size_floor_needs_parsed_nonzero_length
    (now : Nat) (m : StreamsMap) (d : WebResponseDetails)
    (hcl : headerValue d.responseHeaders "content-length" = none ∨
           headerValue d.responseHeaders "content-length" = some "0" ∨
           ∃ s, headerValue d.responseHeaders "content-length" = some s ∧ parseIntJS s = none) :
    sizeFloorHits (respSize d) (detectStreamType d.url (respContentType d)) = false ∧
    (¬ d.tabId < 0 → statusFails d.statusCode = false → excludeMatch d.url = false →
      classifierAccepts d = true →
      handleResponse now m d = addStream d.tabId (mkStream now d) m) ∧
    (∀ d2 : WebResponseDetails,
      sizeFloorHits (respSize d2) (detectStreamType d2.url (respContentType d2)) = true →
      ∃ s n, headerValue d2.responseHeaders "content-length" = some s ∧
             parseIntJS s = some n ∧ n ≠ 0 ∧ n < 5000) := by
  have hfl : sizeFloorHits (respSize d) (detectStreamType d.url (respContentType d)) = false := by
    rcases hcl with hh | hh | ⟨s, hs, hp⟩
    · simp [respSize, jsSize, hh, sizeFloorHits]
    · have : jsSize (some "0") = some 0 := by decide
      simp [respSize, hh, this, sizeFloorHits]
    · by_cases hse : s = ""
      · simp [respSize, jsSize, hs, hse, sizeFloorHits]
      · simp [respSize, jsSize, hs, hse, hp, sizeFloorHits]
  refine ⟨hfl, ?_, ?_⟩
  · intro h1 h2 h3 h4
    unfold handleResponse
    simp [h1, h2, h3, h4, hfl]
  · intro d2 hfr
    cases hrs : respSize d2 with
    | none => rw [hrs] at hfr; simp [sizeFloorHits] at hfr
    | some n =>
      rw [hrs] at hfr
      simp only [sizeFloorHits, Bool.and_eq_true, bne_iff_ne, ne_eq, decide_eq_true_eq] at hfr
      obtain ⟨⟨⟨hn, hlt⟩, _⟩, _⟩ := hfr
      cases hh : headerValue d2.responseHeaders "content-length" with
      | none =>
        simp only [respSize, jsSize, hh] at hrs
        exact Option.noConfusion hrs
      | some s =>
        simp only [respSize, jsSize, hh] at hrs
        by_cases hse : s = ""
        · rw [if_pos hse] at hrs
          exact Option.noConfusion hrs
        · rw [if_neg hse] at hrs
          exact ⟨s, n, rfl, hrs, hn, hlt⟩

/-- Witness for C10 at a response with no content-length header. -/
theorem size_floor_needs_parsed_nonzero_length_witness :
    handleResponse 0 emptyStreams dNoLen
      = addStream dNoLen.tabId (mkStream 0 dNoLen) emptyStreams :=
  (size_floor_needs_parsed_nonzero_length 0 emptyStreams dNoLen (Or.inl (by decide))).2.1
    (by decide) (by decide) (by decide) (by decide)

end VideoSummarizer
